import Mathlib

/-!
Verification of the Linear→Discord webhook relay handler
(`src/api/webhook.ts`) against its natural-language specification.

The handler is shallowly embedded as pure Lean functions.  JavaScript
strings are Lean `String`s; `String.prototype.split` on a one-character
separator is modelled by `splitChar` over `List Char` (it keeps empty
segments, exactly like the JS method).  The Linear SDK calls
(`linear.user`, `linear.issue`) are oracles passed to the handler as
functions returning `Except`, a thrown exception being `Except.error`.
The outbound `fetch` to Discord is modelled by recording the payload the
handler would send.  The `try/catch` envelope of the handler is folded
into the pure result: every branch produces the `{status, success,
message, error}` envelope the catch clause would send.
-/

namespace Webhook

/-- JS `s.split(c)` for a single-character separator: splits on every
occurrence, keeping empty segments; always returns a non-empty list. -/
def splitChar (c : Char) : List Char → List (List Char)
  | [] => [[]]
  | x :: xs =>
    if x = c then [] :: splitChar c xs
    else
      match splitChar c xs with
      | y :: ys => (x :: y) :: ys
      | [] => [[x]]

/-- `parseIdentifier` from `src/api/webhook.ts`:
`url.split('/')[5].split('#')[0]`.  Indexing past the end of the split
(`undefined.split` in JS) throws, which the embedding renders as `none`. -/
def parseIdentifier (url : String) : Option String :=
  match (splitChar '/' url.toList).get? 5 with
  | some seg => some (String.mk ((splitChar '#' seg).headD []))
  | none => none

/-! ## Static configuration (module-level constants of `webhook.ts`) -/

def DISCORD_WEBHOOKS_URL : String := "https://discord.com/api/webhooks"

def WEBHOOK_USERNAME : String := "Linear"

def WEBHOOK_AVATAR_URL : String := "https://ldw.screfy.com/static/linear.png"

def LINEAR_BASE_URL : String := "https://linear.app"

def LINEAR_COLOR : String := "#5E6AD2"

/-- `LINEAR_TRUSTED_IPS = z.enum([...])`: membership in this list is what
`LINEAR_TRUSTED_IPS.safeParse(forwardedFor).success` decides. -/
def LINEAR_TRUSTED_IPS : List String := ["35.231.147.226", "35.243.134.228"]

/-- The static display-name → Discord-id mention table. -/
def LINEAR_DISPLAY_NAME_TO_DISCORD_ID : List (String × String) :=
  [("kong", "152805815097491456"),
   ("kyo.production99", "946380955088732160"),
   ("james.lee", "289070271523061761"),
   ("aki", "181394763683987457"),
   ("junxiong.low", "611578492026486808")]

/-! ## Query parsing (`QUERY_SCHEMA = z.object({...})`) -/

/-- A query-string value as zod sees it: absent, a string, or some other
shape (array, object, …). -/
inductive QueryVal where
  | missing
  | str (s : String)
  | other
  deriving DecidableEq, Repr

def QueryVal.isStr : QueryVal → Bool
  | .str _ => true
  | _ => false

/-- The raw query record with the three fields `QUERY_SCHEMA` requires. -/
structure Query where
  webhookId : QueryVal
  webhookToken : QueryVal
  linearToken : QueryVal
  deriving DecidableEq, Repr

/-- A zod issue, reduced to the path (field name) it reports. -/
structure ZodIssue where
  path : String
  deriving DecidableEq, Repr

structure Creds where
  webhookId : String
  webhookToken : String
  linearToken : String
  deriving DecidableEq, Repr

def checkField (name : String) : QueryVal → List ZodIssue
  | .str _ => []
  | _ => [⟨name⟩]

/-- `QUERY_SCHEMA.parse(req.query)`: succeeds only when all three fields
are strings; otherwise throws a `ZodError` carrying one issue per
missing/malformed field. -/
def parseQuery (q : Query) : Except (List ZodIssue) Creds :=
  match q.webhookId, q.webhookToken, q.linearToken with
  | .str a, .str b, .str c => .ok ⟨a, b, c⟩
  | w, t, l =>
      .error (checkField "webhookId" w ++ checkField "webhookToken" t ++
        checkField "linearToken" l)

/-! ## The event union (result of `SCHEMA.safeParse`) -/

/-- A Linear user as returned by `linear.user(id)` / `issue.assignee`. -/
structure User where
  id : String
  name : String
  displayName : String
  avatarUrl : Option String
  url : String
  deriving DecidableEq, Repr

/-- The parent issue returned by `linear.issue(id)`; only its (already
awaited) `assignee` is consumed by the handler. -/
structure IssueRec where
  assignee : Option User
  deriving DecidableEq, Repr

structure TeamInfo where
  key : String
  name : String
  deriving DecidableEq, Repr

structure StateInfo where
  name : String
  color : String
  deriving DecidableEq, Repr

structure AssigneeRef where
  id : String
  deriving DecidableEq, Repr

/-- `body.data` for Issue events. -/
structure IssueData where
  creatorId : String
  title : String
  team : TeamInfo
  state : StateInfo
  assignee : Option AssigneeRef
  description : Option String
  deriving DecidableEq, Repr

/-- `body.updatedFrom` for Issue-Update events; `stateId` is the
status-change marker, absent when the update did not touch status. -/
structure UpdatedFrom where
  stateId : Option String
  deriving DecidableEq, Repr

structure IssueRef where
  id : String
  title : String
  deriving DecidableEq, Repr

/-- `body.data` for Comment events. -/
structure CommentData where
  userId : String
  issue : IssueRef
  body : String
  deriving DecidableEq, Repr

/-- Modelled from the spec: the strongly-typed event produced by
`SCHEMA.safeParse` (module `src/lib/schema`, not present under `src/`).
Per §4.3 the closed schema covers exactly Issue-Create, Issue-Update
(with an `updatedFrom` object that may lack the `stateId` marker) and
Comment-Create, each carrying the event `url`, `createdAt` and the
per-variant `data` record. -/
inductive Event where
  | issueCreate (url : String) (createdAt : String) (data : IssueData)
  | issueUpdate (url : String) (createdAt : String) (data : IssueData)
      (updatedFrom : Option UpdatedFrom)
  | commentCreate (url : String) (createdAt : String) (data : CommentData)
  deriving DecidableEq, Repr

def Event.url : Event → String
  | .issueCreate u _ _ => u
  | .issueUpdate u _ _ _ => u
  | .commentCreate u _ _ => u

/-- JS truthiness of an optional string (`undefined`, `null` and `""` are
falsy). -/
def truthyStr : Option String → Bool
  | some s => s ≠ ""
  | none => false

/-! ## The Discord embed (`new MessageEmbed({...})` and its setters) -/

structure EmbedField where
  name : String
  value : String
  inline : Bool
  deriving DecidableEq, Repr

/-- The observable state of the `MessageEmbed` the handler builds:
exactly the fields the handler ever sets. -/
structure Embed where
  color : Option String
  timestamp : Option String
  title : Option String
  url : Option String
  author : Option String
  footerText : Option String
  footerIcon : Option String
  fields : List EmbedField
  description : Option String
  deriving DecidableEq, Repr

/-- `new MessageEmbed({color: LINEAR_COLOR, timestamp: body.createdAt})`. -/
def initialEmbed (createdAt : String) : Embed :=
  { color := some LINEAR_COLOR
    timestamp := some createdAt
    title := none
    url := none
    author := none
    footerText := none
    footerIcon := none
    fields := []
    description := none }

/-! ## Event processing (the `switch (body.type)` block) -/

/-- Why processing threw: a Linear API lookup rejected, or
`parseIdentifier` dereferenced an absent URL segment (JS `TypeError`).
The catch clause treats both identically (HTTP 500). -/
inductive RunErr where
  | lookup
  | parse
  deriving DecidableEq, Repr

/-- `await linear.user(id)`, with a thrown SDK error tagged `.lookup`. -/
def fetchUser (userById : String → Except Unit User) (id : String) :
    Except RunErr User :=
  match userById id with
  | .ok u => .ok u
  | .error _ => .error .lookup

/-- `await linear.issue(id)`, with a thrown SDK error tagged `.lookup`. -/
def fetchIssue (issueById : String → Except Unit IssueRec) (id : String) :
    Except RunErr IssueRec :=
  match issueById id with
  | .ok i => .ok i
  | .error _ => .error .lookup

/-- `parseIdentifier(url)`, throwing when the URL is too shallow. -/
def runParseIdentifier (url : String) : Except RunErr String :=
  match parseIdentifier url with
  | some s => .ok s
  | none => .error .parse

/-- The body of the `switch (body.type)` statement: builds the embed and
resolves `assignee` / `actionUser`, in the source's evaluation order.
Returns the final embed together with the two resolved users. -/
def runEvent (userById : String → Except Unit User)
    (issueById : String → Except Unit IssueRec) :
    Event → Except RunErr (Embed × Option User × Option User)
  | .issueCreate url createdAt d => do
      let actionUser ← fetchUser userById d.creatorId
      let identifier ← runParseIdentifier url
      let teamUrl := LINEAR_BASE_URL ++ "/team/" ++ d.team.key
      let base : Embed :=
        { initialEmbed createdAt with
          title := some (identifier ++ " " ++ d.title)
          url := some url
          author := some "New issue added"
          footerText := some actionUser.name
          footerIcon := actionUser.avatarUrl
          fields :=
            [⟨"Team", "[" ++ d.team.name ++ "](" ++ teamUrl ++ ")", true⟩,
             ⟨"Status", d.state.name, true⟩] }
      let (withAssignee, assignee) ←
        match d.assignee with
        | some a => do
            let u ← fetchUser userById a.id
            pure ({ base with
              fields := base.fields ++
                [⟨"Assignee", "[" ++ u.displayName ++ "](" ++ u.url ++ ")",
                  true⟩] }, some u)
        | none => pure (base, none)
      let final :=
        match d.description with
        | some s => if s = "" then withAssignee
                    else { withAssignee with description := some s }
        | none => withAssignee
      pure (final, assignee, some actionUser)
  | .issueUpdate url createdAt d updatedFrom =>
      if truthyStr (updatedFrom.bind (·.stateId)) then do
        let actionUser ← fetchUser userById d.creatorId
        let identifier ← runParseIdentifier url
        let assignee ←
          match d.assignee with
          | some a => do
              let u ← fetchUser userById a.id
              pure (some u)
          | none => pure (none : Option User)
        pure ({ initialEmbed createdAt with
          title := some (identifier ++ " " ++ d.title)
          url := some url
          author := some "Status changed"
          color := some d.state.color
          footerText := some actionUser.name
          footerIcon := actionUser.avatarUrl
          description := some ("Status: **" ++ d.state.name ++ "**") },
          assignee, some actionUser)
      else
        pure (initialEmbed createdAt, none, none)
  | .commentCreate url createdAt d => do
      let actionUser ← fetchUser userById d.userId
      let linearIssue ← fetchIssue issueById d.issue.id
      let identifier ← runParseIdentifier url
      let assignee := linearIssue.assignee
      pure ({ initialEmbed createdAt with
        title := some (identifier ++ " " ++ d.issue.title)
        url := some url
        author := some "New comment"
        footerText := some actionUser.name
        footerIcon := actionUser.avatarUrl
        description := some d.body }, assignee, some actionUser)

/-! ## Mention resolution and dispatch -/

def MENTION_PREFIX : String := "👋 "

/-- The standard members of `Object.prototype`.  The static table is a
plain object literal, so a bracket access for any of these names walks
the prototype chain and yields the inherited member — eleven native
functions plus the `__proto__` accessor (which yields
`Object.prototype`) — every one of them truthy at runtime. -/
def OBJECT_PROTOTYPE_MEMBERS : List String :=
  ["constructor", "hasOwnProperty", "isPrototypeOf",
   "propertyIsEnumerable", "toLocaleString", "toString", "valueOf",
   "__defineGetter__", "__defineSetter__", "__lookupGetter__",
   "__lookupSetter__", "__proto__"]

/-- A JS property-access result on the table: the string value of an own
entry, a member inherited from `Object.prototype`, or `undefined`. -/
inductive PropValue where
  | str (s : String)
  | inherited (name : String)
  | undefined
  deriving DecidableEq, Repr

/-- JS truthiness of a property-access result: `""` and `undefined` are
falsy; inherited prototype members (functions and `Object.prototype`
itself) are always truthy. -/
def PropValue.truthy : PropValue → Bool
  | .str s => s ≠ ""
  | .inherited _ => true
  | .undefined => false

/-- `LINEAR_DISPLAY_NAME_TO_DISCORD_ID[key]` with JS object semantics:
an own key yields its string value; failing that, the access walks the
prototype chain, so a key naming an `Object.prototype` member yields
that inherited member; only the remaining keys yield `undefined`. -/
def tableGet (key : String) : PropValue :=
  match LINEAR_DISPLAY_NAME_TO_DISCORD_ID.lookup key with
  | some v => .str v
  | none =>
      if key ∈ OBJECT_PROTOTYPE_MEMBERS then .inherited key else .undefined

/-- How the template literal stringifies the accessed value (V8/Node):
an own entry is its id string; a native function prints as
`function name() { [native code] }`; `__proto__` yields
`Object.prototype`, printing as `[object Object]`; `constructor` yields
the `Object` constructor function, whose name is `Object`. -/
def jsPropString : PropValue → String
  | .str s => s
  | .inherited n =>
      if n = "__proto__" then "[object Object]"
      else if n = "constructor" then "function Object() \x7b [native code] \x7d"
      else "function " ++ n ++ "() \x7b [native code] \x7d"
  | .undefined => "undefined"

/-- The `discordUserId` / `content` computation before `fetch`:
`assignee && actionUser && assignee.id !== actionUser.id
  ? LINEAR_DISPLAY_NAME_TO_DISCORD_ID[assignee.displayName] : undefined`
then `discordUserId ? mention : undefined` (JS truthiness on the
accessed value).  The table access follows JS object semantics
(`tableGet`), so a display name colliding with an `Object.prototype`
member produces a truthy value and hence a content string. -/
def mentionContent (assignee actionUser : Option User) : Option String :=
  let discordUserId : PropValue :=
    match assignee, actionUser with
    | some a, some u =>
        if a.id ≠ u.id then tableGet a.displayName
        else .undefined
    | _, _ => .undefined
  if discordUserId.truthy then
    some (MENTION_PREFIX ++ "<@" ++ jsPropString discordUserId ++ ">")
  else none

/-- The JSON body POSTed to the Discord webhook URL, together with the
URL parts it was addressed to. -/
structure DispatchPayload where
  webhookId : String
  webhookToken : String
  content : Option String
  username : String
  avatar_url : String
  embed : Embed
  deriving DecidableEq, Repr

/-! ## The handler -/

/-- The `error` component of the response envelope:
`null`, a message string, or a `ZodError`'s issue list. -/
inductive RespError where
  | null
  | msg (s : String)
  | issues (l : List ZodIssue)
  deriving DecidableEq, Repr

/-- Everything observable about one invocation: the HTTP response
envelope and the outbound Discord call, if one was made. -/
structure HandlerOutcome where
  status : Nat
  success : Bool
  message : Option String
  error : RespError
  dispatched : Option DispatchPayload
  deriving DecidableEq, Repr

/-- The inbound request: method, the `x-vercel-forwarded-for` header,
the query record, and the body — already rendered as `SCHEMA.safeParse`'s
result (`none` = valid JSON matching no supported schema). -/
structure Request where
  method : String
  forwardedFor : Option String
  query : Query
  body : Option Event
  deriving DecidableEq, Repr

/-- The exported `handler`.  `devMode` is
`process.env.NODE_ENV === 'development'`; `userById` / `issueById` are
the Linear SDK oracles.  Every `throw` is folded into the envelope the
catch clause would send (`HttpError` → its status and message, `ZodError`
→ 400 with the issue list, anything else → 500 "Something went wrong.");
a successful `res.send` has status 200. -/
def handler (devMode : Bool) (userById : String → Except Unit User)
    (issueById : String → Except Unit IssueRec) (req : Request) :
    HandlerOutcome :=
  if req.method ≠ "POST" then
    { status := 405, success := false, message := none
      error := .msg ("Method " ++ req.method ++ " is not allowed.")
      dispatched := none }
  else
    let forwardedFor := req.forwardedFor.getD ""
    if ¬ devMode ∧ forwardedFor ∉ LINEAR_TRUSTED_IPS then
      { status := 403, success := false, message := none
        error := .msg ("Request from IP address " ++ forwardedFor ++
          " is not allowed.")
        dispatched := none }
    else
      match parseQuery req.query with
      | .error issues =>
          { status := 400, success := false, message := none
            error := .issues issues, dispatched := none }
      | .ok creds =>
          match req.body with
          | none =>
              { status := 200, success := true
                message := some "Event skipped.", error := .null
                dispatched := none }
          | some body =>
              match runEvent userById issueById body with
              | .error _ =>
                  { status := 500, success := false, message := none
                    error := .msg "Something went wrong.", dispatched := none }
              | .ok (embed, assignee, actionUser) =>
                  { status := 200, success := true, message := some "OK"
                    error := .null
                    dispatched := some
                      { webhookId := creds.webhookId
                        webhookToken := creds.webhookToken
                        content := mentionContent assignee actionUser
                        username := WEBHOOK_USERNAME
                        avatar_url := WEBHOOK_AVATAR_URL
                        embed := embed } }

/-! ## Concrete fixtures used by witnesses and counterexamples -/

def userKong : User :=
  { id := "user-a", name := "Kong W", displayName := "kong"
    avatarUrl := some "https://example.com/a.png"
    url := "https://linear.app/u/kong" }

def userAki : User :=
  { id := "user-b", name := "Aki Y", displayName := "aki"
    avatarUrl := none, url := "https://linear.app/u/aki" }

/-- Oracle returning `userKong` for id `"user-a"` and `userAki` otherwise. -/
def mockUserById : String → Except Unit User :=
  fun id => if id = "user-a" then .ok userKong else .ok userAki

/-- Oracle whose every lookup throws. -/
def failUserById : String → Except Unit User := fun _ => .error ()

def mockIssueById : String → Except Unit IssueRec :=
  fun _ => .ok { assignee := some userKong }

def goodQuery : Query := ⟨.str "wid", .str "wtok", .str "ltok"⟩

def trustedIp : String := "35.231.147.226"

/-- Projects the dispatched payload out of an outcome (a default for the
no-dispatch case, used only where a dispatch is proven to exist). -/
def dispatchedPayloadOf (o : HandlerOutcome) : DispatchPayload :=
  o.dispatched.getD ⟨"", "", none, "", "", initialEmbed ""⟩

/-- An Issue-Create body whose assignee (`user-a` → `userKong`, display
name `"kong"`, in the mention table) differs from its creator. -/
def bodyMention : Event :=
  .issueCreate "https://linear.app/kong/issue/ENG-9#x" "2022-02-02"
    ⟨"creator-9", "Title9", ⟨"ENG", "Engineering"⟩, ⟨"Todo", "#eb5757"⟩,
      some ⟨"user-a"⟩, none⟩

def reqMention : Request := ⟨"POST", some trustedIp, goodQuery, some bodyMention⟩

/-- A user whose display name collides with an `Object.prototype`
member and is not a key of the static mention table. -/
def userProto : User :=
  { id := "user-c", name := "Proto P", displayName := "constructor"
    avatarUrl := none, url := "https://linear.app/u/proto" }

/-- Oracle resolving id `user-c` to `userProto` and any other id to
`userAki`. -/
def protoUserById : String → Except Unit User :=
  fun id => if id = "user-c" then .ok userProto else .ok userAki

/-- An Issue-Create body whose assignee resolves to `userProto` and
whose creator resolves to a different user. -/
def bodyProtoMention : Event :=
  .issueCreate "https://linear.app/kong/issue/ENG-9#x" "2022-02-02"
    ⟨"creator-9", "Title9", ⟨"ENG", "Engineering"⟩, ⟨"Todo", "#eb5757"⟩,
      some ⟨"user-c"⟩, none⟩

def reqProtoMention : Request :=
  ⟨"POST", some trustedIp, goodQuery, some bodyProtoMention⟩

/-- A Comment-Create body; the parent issue is resolved via `mockIssueById`. -/
def bodyComment : Event :=
  .commentCreate "https://linear.app/kong/issue/ENG-5#c" "2022-03-03"
    ⟨"creator-9", ⟨"iss-1", "Issue Five"⟩, "hello"⟩

def reqComment : Request := ⟨"POST", some trustedIp, goodQuery, some bodyComment⟩

/-- An Issue-Create body whose URL has fewer than six `/` segments. -/
def bodyShortUrl : Event :=
  .issueCreate "no-slashes" "2022-04-04"
    ⟨"user-a", "T", ⟨"ENG", "Engineering"⟩, ⟨"Todo", "#eb5757"⟩, none, none⟩

def reqShortUrl : Request := ⟨"POST", some trustedIp, goodQuery, some bodyShortUrl⟩

/-! ## General lemmas -/

theorem splitChar_ne_nil (c : Char) (l : List Char) : splitChar c l ≠ [] := by
  induction l with
  | nil => simp [splitChar]
  | cons x xs ih =>
    simp only [splitChar]
    split
    · simp
    · cases h : splitChar c xs with
      | nil => simp
      | cons y ys => simp [h]

/-- The first segment of a split is the prefix before the first separator. -/
theorem splitChar_head (c : Char) (l : List Char) :
    (splitChar c l).headD [] = l.takeWhile (· ≠ c) := by
  induction l with
  | nil => simp [splitChar]
  | cons x xs ih =>
    simp only [splitChar, List.takeWhile]
    by_cases hx : x = c
    · simp [hx]
    · simp only [if_neg hx]
      cases h : splitChar c xs with
      | nil => exact absurd h (splitChar_ne_nil c xs)
      | cons y ys =>
        simp only [h, List.headD] at ih ⊢
        simp [hx, ih]

/-- Every id in the static mention table is a non-empty string, so the
JS truthiness test on a successful lookup never suppresses the mention. -/
theorem table_lookup_ne_empty (k i : String)
    (h : LINEAR_DISPLAY_NAME_TO_DISCORD_ID.lookup k = some i) : i ≠ "" := by
  simp only [LINEAR_DISPLAY_NAME_TO_DISCORD_ID, List.lookup] at h
  repeat' split at h
  all_goals
    first
      | exact Option.noConfusion h
      | (rw [Option.some.injEq] at h; subst h; decide)

/-- Characterization of the `content` computation: it is present exactly
when assignee and actor are both resolved, their ids differ, and the
assignee's display name either is a key of the static table (a mention
of the mapped id) or collides with an `Object.prototype` member (the
truthy inherited member leaks into the content string). -/
theorem mentionContent_eq_some_iff (assignee actionUser : Option User)
    (s : String) :
    mentionContent assignee actionUser = some s ↔
    ∃ a u, assignee = some a ∧ actionUser = some u ∧ a.id ≠ u.id ∧
      ((∃ i, LINEAR_DISPLAY_NAME_TO_DISCORD_ID.lookup a.displayName = some i ∧
          s = MENTION_PREFIX ++ "<@" ++ i ++ ">") ∨
       (LINEAR_DISPLAY_NAME_TO_DISCORD_ID.lookup a.displayName = none ∧
          a.displayName ∈ OBJECT_PROTOTYPE_MEMBERS ∧
          s = MENTION_PREFIX ++ "<@" ++
            jsPropString (.inherited a.displayName) ++ ">")) := by
  cases assignee with
  | none => simp [mentionContent, PropValue.truthy]
  | some a =>
    cases actionUser with
    | none => simp [mentionContent, PropValue.truthy]
    | some u =>
      by_cases hid : a.id = u.id
      · simp [mentionContent, PropValue.truthy, hid]
      · have hmc : mentionContent (some a) (some u) =
            (if (tableGet a.displayName).truthy then
              some (MENTION_PREFIX ++ "<@" ++
                jsPropString (tableGet a.displayName) ++ ">")
            else none) := by
          simp [mentionContent, hid]
        rw [hmc]
        cases hlk : LINEAR_DISPLAY_NAME_TO_DISCORD_ID.lookup a.displayName with
        | some i =>
            have hne := table_lookup_ne_empty _ _ hlk
            have htg : tableGet a.displayName = .str i := by
              simp [tableGet, hlk]
            have htr : (PropValue.str i).truthy = true := by
              simp [PropValue.truthy, hne]
            rw [htg, if_pos htr]
            constructor
            · intro h
              injection h with hs
              exact ⟨a, u, rfl, rfl, hid, Or.inl ⟨i, hlk, hs.symm⟩⟩
            · rintro ⟨a2, u2, ha2, hu2, hid2, hcase⟩
              injection ha2 with ha2e
              subst ha2e
              rcases hcase with ⟨i2, hlk2, hs⟩ | ⟨hnone, hmem, hs⟩
              · rw [hlk] at hlk2
                injection hlk2 with hie
                subst hie
                rw [hs]
                rfl
              · rw [hlk] at hnone
                exact Option.noConfusion hnone
        | none =>
            by_cases hproto : a.displayName ∈ OBJECT_PROTOTYPE_MEMBERS
            · have htg : tableGet a.displayName = .inherited a.displayName := by
                simp [tableGet, hlk, hproto]
              have htr : (PropValue.inherited a.displayName).truthy = true := rfl
              rw [htg, if_pos htr]
              constructor
              · intro h
                injection h with hs
                exact ⟨a, u, rfl, rfl, hid, Or.inr ⟨hlk, hproto, hs.symm⟩⟩
              · rintro ⟨a2, u2, ha2, hu2, hid2, hcase⟩
                injection ha2 with ha2e
                subst ha2e
                rcases hcase with ⟨i2, hlk2, hs⟩ | ⟨hnone, hmem, hs⟩
                · rw [hlk] at hlk2
                  exact Option.noConfusion hlk2
                · rw [hs]
            · have htg : tableGet a.displayName = .undefined := by
                simp [tableGet, hlk, hproto]
              rw [htg]
              simp [PropValue.truthy, hid, hlk, hproto]

/-- Anatomy of a dispatch: whenever the handler performed an outbound
call, the query parsed, the body matched the schema, processing
succeeded, and the payload is built from the resulting embed and the
mention resolution of the resolved assignee/actor pair. -/
theorem handler_dispatch_shape (devMode : Bool)
    (userById : String → Except Unit User)
    (issueById : String → Except Unit IssueRec) (req : Request)
    (p : DispatchPayload)
    (hd : (handler devMode userById issueById req).dispatched = some p) :
    ∃ creds body e asg au,
      parseQuery req.query = .ok creds ∧ req.body = some body ∧
      runEvent userById issueById body = .ok (e, asg, au) ∧
      p = ⟨creds.webhookId, creds.webhookToken, mentionContent asg au,
        WEBHOOK_USERNAME, WEBHOOK_AVATAR_URL, e⟩ := by
  by_cases hm : req.method = "POST"
  case neg => simp [handler, hm] at hd
  by_cases hip : devMode = false ∧ req.forwardedFor.getD "" ∉ LINEAR_TRUSTED_IPS
  case pos => simp [handler, hm, hip] at hd
  cases hq : parseQuery req.query with
  | error l => simp [handler, hm, hip, hq] at hd
  | ok creds =>
    cases hb : req.body with
    | none => simp [handler, hm, hip, hq, hb] at hd
    | some body =>
      cases hrun : runEvent userById issueById body with
      | error err => simp [handler, hm, hip, hq, hb, hrun] at hd
      | ok triple =>
        obtain ⟨e, asg, au⟩ := triple
        simp [handler, hm, hip, hq, hb, hrun] at hd
        refine ⟨creds, body, e, asg, au, rfl, rfl, hrun, ?_⟩
        exact hd.symm

/-! ## Claim theorems -/

/-- C8: for every request whose HTTP method is not POST, the handler
responds with HTTP status 405 and a body with success = false, regardless
of the request's other contents (and performs no dispatch). -/
theorem c8_non_post_rejected (devMode : Bool)
    (userById : String → Except Unit User)
    (issueById : String → Except Unit IssueRec) (req : Request)
    (h : req.method ≠ "POST") :
    (handler devMode userById issueById req).status = 405 ∧
    (handler devMode userById issueById req).success = false ∧
    (handler devMode userById issueById req).dispatched = none := by
  simp [handler, h]

/-- Witness for C8 at a concrete GET request. -/
theorem c8_witness :
    (handler false mockUserById mockIssueById
      ⟨"GET", some trustedIp, goodQuery, none⟩).status = 405 ∧
    (handler false mockUserById mockIssueById
      ⟨"GET", some trustedIp, goodQuery, none⟩).success = false ∧
    (handler false mockUserById mockIssueById
      ⟨"GET", some trustedIp, goodQuery, none⟩).dispatched = none :=
  c8_non_post_rejected false mockUserById mockIssueById
    ⟨"GET", some trustedIp, goodQuery, none⟩ (by decide)

/-- C7: a POST request whose forwarded-for IP is not one of the two
allow-listed strings gets HTTP 403 with success = false outside
development mode; in development mode the IP check is skipped entirely —
the handler's outcome does not depend on the forwarded-for header at all. -/
theorem c7_ip_gate (userById : String → Except Unit User)
    (issueById : String → Except Unit IssueRec) (req : Request) :
    (req.method = "POST" →
      (req.forwardedFor.getD "") ∉ LINEAR_TRUSTED_IPS →
      (handler false userById issueById req).status = 403 ∧
      (handler false userById issueById req).success = false ∧
      (handler false userById issueById req).dispatched = none) ∧
    (∀ fwd : Option String,
      handler true userById issueById { req with forwardedFor := fwd } =
      handler true userById issueById req) := by
  constructor
  · intro hm hip
    simp [handler, hm, hip]
  · intro fwd
    simp [handler]

/-- Witness for C7: a concrete POST from an unlisted IP is rejected 403. -/
theorem c7_witness :
    (handler false mockUserById mockIssueById
      ⟨"POST", some "10.0.0.1", goodQuery, none⟩).status = 403 ∧
    (handler false mockUserById mockIssueById
      ⟨"POST", some "10.0.0.1", goodQuery, none⟩).success = false ∧
    (handler false mockUserById mockIssueById
      ⟨"POST", some "10.0.0.1", goodQuery, none⟩).dispatched = none :=
  (c7_ip_gate mockUserById mockIssueById
    ⟨"POST", some "10.0.0.1", goodQuery, none⟩).1 (by decide) (by decide)

/-- C4: whenever the event URL has at least six `/`-separated segments,
the parsed identifier is the 6th segment with everything from the first
`#` onward stripped. -/
theorem c4_identifier (url : String)
    (h : 5 < (splitChar '/' url.toList).length) :
    parseIdentifier url =
      some (String.mk
        (((splitChar '/' url.toList).getD 5 []).takeWhile (fun c => c ≠ '#'))) := by
  unfold parseIdentifier
  rw [List.get?_eq_getElem?, List.getElem?_eq_getElem h]
  rw [List.getD_eq_getElem _ _ h]
  dsimp only
  rw [splitChar_head]

/-- Witness for C4 at the claim's example URL shape
`…/issue/…/ENG-123#comment-1`: the derived identifier is `ENG-123`. -/
theorem c4_witness :
    5 < (splitChar '/' ("https://linear.app/kong/issue/ENG-123#comment-1").toList).length ∧
    parseIdentifier "https://linear.app/kong/issue/ENG-123#comment-1" =
      some (String.mk
        (((splitChar '/' ("https://linear.app/kong/issue/ENG-123#comment-1").toList).getD 5 []).takeWhile (fun c => c ≠ '#'))) ∧
    parseIdentifier "https://linear.app/kong/issue/ENG-123#comment-1" =
      some "ENG-123" :=
  ⟨by decide, c4_identifier _ (by decide), by decide⟩

/-- Helper: when not all three query fields are strings, `parseQuery`
throws the combined issue list. -/
theorem parseQuery_error (q : Query)
    (h : ¬ (q.webhookId.isStr ∧ q.webhookToken.isStr ∧ q.linearToken.isStr)) :
    parseQuery q = .error (checkField "webhookId" q.webhookId ++
      checkField "webhookToken" q.webhookToken ++
      checkField "linearToken" q.linearToken) := by
  rcases q with ⟨w, t, l⟩
  cases w <;> cases t <;> cases l <;>
    simp_all [QueryVal.isStr, parseQuery, checkField]

/-- Helper: a non-string query field contributes exactly its issue. -/
theorem checkField_of_not_isStr (n : String) (v : QueryVal)
    (h : ¬ v.isStr = true) : checkField n v = [⟨n⟩] := by
  cases v <;> simp_all [QueryVal.isStr, checkField]

/-- C6: a POST from a trusted source whose query lacks any of the three
required string parameters gets HTTP 400 with an error that is a
non-empty issue list naming every missing/malformed field, and nothing
is dispatched. -/
theorem c6_query_validation (devMode : Bool)
    (userById : String → Except Unit User)
    (issueById : String → Except Unit IssueRec) (req : Request)
    (hm : req.method = "POST")
    (hip : devMode = true ∨ (req.forwardedFor.getD "") ∈ LINEAR_TRUSTED_IPS)
    (hbad : ¬ (req.query.webhookId.isStr ∧ req.query.webhookToken.isStr ∧
      req.query.linearToken.isStr)) :
    (handler devMode userById issueById req).status = 400 ∧
    (handler devMode userById issueById req).success = false ∧
    (handler devMode userById issueById req).dispatched = none ∧
    ∃ l, (handler devMode userById issueById req).error = .issues l ∧
      l ≠ [] ∧
      (¬ req.query.webhookId.isStr → (⟨"webhookId"⟩ : ZodIssue) ∈ l) ∧
      (¬ req.query.webhookToken.isStr → (⟨"webhookToken"⟩ : ZodIssue) ∈ l) ∧
      (¬ req.query.linearToken.isStr → (⟨"linearToken"⟩ : ZodIssue) ∈ l) := by
  have hq := parseQuery_error req.query hbad
  have henv : handler devMode userById issueById req =
      { status := 400, success := false, message := none
        error := .issues (checkField "webhookId" req.query.webhookId ++
          checkField "webhookToken" req.query.webhookToken ++
          checkField "linearToken" req.query.linearToken)
        dispatched := none } := by
    rcases hip with hdev | hip
    · subst hdev
      simp [handler, hm, hq]
    · simp [handler, hm, hip, hq]
  have hcases : ¬ req.query.webhookId.isStr = true ∨
      ¬ req.query.webhookToken.isStr = true ∨
      ¬ req.query.linearToken.isStr = true := by tauto
  refine ⟨by rw [henv], by rw [henv], by rw [henv], ?_⟩
  refine ⟨_, by rw [henv], ?_, ?_, ?_, ?_⟩
  · intro hnil
    simp only [List.append_eq_nil] at hnil
    rcases hcases with h | h | h <;>
      rw [checkField_of_not_isStr _ _ h] at hnil <;> simp at hnil
  · intro hw
    rw [checkField_of_not_isStr "webhookId" _ hw]
    simp
  · intro ht
    rw [checkField_of_not_isStr "webhookToken" _ ht]
    simp
  · intro hl
    rw [checkField_of_not_isStr "linearToken" _ hl]
    simp

/-- Witness for C6: a POST with an entirely missing query is rejected 400
with issues for all three fields. -/
theorem c6_witness :
    (handler false mockUserById mockIssueById
      ⟨"POST", some trustedIp, ⟨.missing, .missing, .missing⟩, none⟩).status = 400 ∧
    (handler false mockUserById mockIssueById
      ⟨"POST", some trustedIp, ⟨.missing, .missing, .missing⟩, none⟩).success = false ∧
    (handler false mockUserById mockIssueById
      ⟨"POST", some trustedIp, ⟨.missing, .missing, .missing⟩, none⟩).dispatched = none ∧
    ∃ l, (handler false mockUserById mockIssueById
      ⟨"POST", some trustedIp, ⟨.missing, .missing, .missing⟩, none⟩).error = .issues l ∧
      l ≠ [] ∧
      (¬ QueryVal.isStr .missing → (⟨"webhookId"⟩ : ZodIssue) ∈ l) ∧
      (¬ QueryVal.isStr .missing → (⟨"webhookToken"⟩ : ZodIssue) ∈ l) ∧
      (¬ QueryVal.isStr .missing → (⟨"linearToken"⟩ : ZodIssue) ∈ l) :=
  c6_query_validation false mockUserById mockIssueById
    ⟨"POST", some trustedIp, ⟨.missing, .missing, .missing⟩, none⟩
    (by decide) (Or.inr (by decide)) (by decide)

/-- C1 counterexample: at a concrete POST from a trusted IP with a valid
query and a body matching no supported schema, the handler does skip
(status 200, success, no dispatch) but the message is `"Event skipped."`
— with a trailing period — not `"Event skipped"` as claimed. -/
theorem c1_counterexample :
    (⟨"POST", some trustedIp, goodQuery, none⟩ : Request).method = "POST" ∧
    parseQuery (⟨"POST", some trustedIp, goodQuery, none⟩ : Request).query =
      .ok ⟨"wid", "wtok", "ltok"⟩ ∧
    (⟨"POST", some trustedIp, goodQuery, none⟩ : Request).body = none ∧
    (handler false mockUserById mockIssueById
      ⟨"POST", some trustedIp, goodQuery, none⟩).status = 200 ∧
    (handler false mockUserById mockIssueById
      ⟨"POST", some trustedIp, goodQuery, none⟩).success = true ∧
    (handler false mockUserById mockIssueById
      ⟨"POST", some trustedIp, goodQuery, none⟩).error = .null ∧
    (handler false mockUserById mockIssueById
      ⟨"POST", some trustedIp, goodQuery, none⟩).dispatched = none ∧
    (handler false mockUserById mockIssueById
      ⟨"POST", some trustedIp, goodQuery, none⟩).message ≠
        some "Event skipped" ∧
    (handler false mockUserById mockIssueById
      ⟨"POST", some trustedIp, goodQuery, none⟩).message =
        some "Event skipped." := by
  refine ⟨rfl, rfl, rfl, rfl, rfl, rfl, rfl, ?_, rfl⟩
  decide

/-- C1 (amended): for every gate-passing request (POST, trusted or dev
mode, valid query) whose body parses as JSON but matches no supported
schema, the handler responds 200 with success = true, message =
`"Event skipped."` (trailing period), error = null, and dispatches
nothing. -/
theorem c1_skip_unmatched (devMode : Bool)
    (userById : String → Except Unit User)
    (issueById : String → Except Unit IssueRec) (req : Request)
    (creds : Creds)
    (hm : req.method = "POST")
    (hip : devMode = true ∨ (req.forwardedFor.getD "") ∈ LINEAR_TRUSTED_IPS)
    (hq : parseQuery req.query = .ok creds)
    (hb : req.body = none) :
    handler devMode userById issueById req =
      { status := 200, success := true, message := some "Event skipped."
        error := .null, dispatched := none } := by
  rcases hip with hdev | hip
  · subst hdev
    simp [handler, hm, hq, hb]
  · simp [handler, hm, hip, hq, hb]

/-- Witness for the amended C1 at a concrete request. -/
theorem c1_witness :
    handler false mockUserById mockIssueById
      ⟨"POST", some trustedIp, goodQuery, none⟩ =
      { status := 200, success := true, message := some "Event skipped."
        error := .null, dispatched := none } :=
  c1_skip_unmatched false mockUserById mockIssueById
    ⟨"POST", some trustedIp, goodQuery, none⟩ ⟨"wid", "wtok", "ltok"⟩
    (by decide) (Or.inr (by decide)) rfl rfl

/-- C3: whenever an enrichment lookup against the Linear API throws
during event processing, the handler responds 500 with the generic
message "Something went wrong." and performs no outbound dispatch. -/
theorem c3_lookup_failure (devMode : Bool)
    (userById : String → Except Unit User)
    (issueById : String → Except Unit IssueRec) (req : Request)
    (creds : Creds) (body : Event)
    (hm : req.method = "POST")
    (hip : devMode = true ∨ (req.forwardedFor.getD "") ∈ LINEAR_TRUSTED_IPS)
    (hq : parseQuery req.query = .ok creds)
    (hb : req.body = some body)
    (hfail : runEvent userById issueById body = .error .lookup) :
    handler devMode userById issueById req =
      { status := 500, success := false, message := none
        error := .msg "Something went wrong.", dispatched := none } := by
  rcases hip with hdev | hip
  · subst hdev
    simp [handler, hm, hq, hb, hfail]
  · simp [handler, hm, hip, hq, hb, hfail]

/-- Witness for C3: an Issue-Create event whose creator lookup throws. -/
theorem c3_witness :
    handler false failUserById mockIssueById
      ⟨"POST", some trustedIp, goodQuery,
        some (.issueCreate "https://linear.app/kong/issue/ENG-1/t" "2022-01-01"
          ⟨"user-a", "Title", ⟨"ENG", "Engineering"⟩, ⟨"Todo", "#ffffff"⟩,
            none, none⟩)⟩ =
      { status := 500, success := false, message := none
        error := .msg "Something went wrong.", dispatched := none } :=
  c3_lookup_failure false failUserById mockIssueById
    ⟨"POST", some trustedIp, goodQuery,
      some (.issueCreate "https://linear.app/kong/issue/ENG-1/t" "2022-01-01"
        ⟨"user-a", "Title", ⟨"ENG", "Engineering"⟩, ⟨"Todo", "#ffffff"⟩,
          none, none⟩)⟩
    ⟨"wid", "wtok", "ltok"⟩
    (.issueCreate "https://linear.app/kong/issue/ENG-1/t" "2022-01-01"
      ⟨"user-a", "Title", ⟨"ENG", "Engineering"⟩, ⟨"Todo", "#ffffff"⟩,
        none, none⟩)
    (by decide) (Or.inr (by decide)) rfl rfl rfl

/-- C5: a schema-valid Issue-Update whose `updatedFrom` lacks a truthy
`stateId` marker still triggers exactly one outbound dispatch, whose
embed carries only the default brand color and the event timestamp (no
title, URL, author, footer, fields, or description) and no mention
content, and the handler responds with success. -/
theorem c5_unhandled_dispatch (devMode : Bool)
    (userById : String → Except Unit User)
    (issueById : String → Except Unit IssueRec) (req : Request)
    (creds : Creds) (url createdAt : String) (d : IssueData)
    (uf : Option UpdatedFrom)
    (hm : req.method = "POST")
    (hip : devMode = true ∨ (req.forwardedFor.getD "") ∈ LINEAR_TRUSTED_IPS)
    (hq : parseQuery req.query = .ok creds)
    (hb : req.body = some (.issueUpdate url createdAt d uf))
    (hnost : truthyStr (uf.bind (·.stateId)) = false) :
    (handler devMode userById issueById req).status = 200 ∧
    (handler devMode userById issueById req).success = true ∧
    (handler devMode userById issueById req).message = some "OK" ∧
    ∃ p, (handler devMode userById issueById req).dispatched = some p ∧
      p.content = none ∧
      p.embed.color = some LINEAR_COLOR ∧
      p.embed.timestamp = some createdAt ∧
      p.embed.title = none ∧ p.embed.url = none ∧ p.embed.author = none ∧
      p.embed.footerText = none ∧ p.embed.footerIcon = none ∧
      p.embed.fields = [] ∧ p.embed.description = none := by
  have hrun : runEvent userById issueById (.issueUpdate url createdAt d uf) =
      .ok (initialEmbed createdAt, none, none) := by
    simp [runEvent, hnost]
    rfl
  have henv : handler devMode userById issueById req =
      { status := 200, success := true, message := some "OK"
        error := .null
        dispatched := some
          { webhookId := creds.webhookId
            webhookToken := creds.webhookToken
            content := mentionContent none none
            username := WEBHOOK_USERNAME
            avatar_url := WEBHOOK_AVATAR_URL
            embed := initialEmbed createdAt } } := by
    rcases hip with hdev | hip
    · subst hdev
      simp [handler, hm, hq, hb, hrun]
    · simp [handler, hm, hip, hq, hb, hrun]
  rw [henv]
  refine ⟨rfl, rfl, rfl, _, rfl, ?_⟩
  simp [mentionContent, PropValue.truthy, initialEmbed]

/-- Witness for C5: an Issue-Update whose `updatedFrom` is `{}`. -/
theorem c5_witness :
    (handler false mockUserById mockIssueById
      ⟨"POST", some trustedIp, goodQuery,
        some (.issueUpdate "https://linear.app/kong/issue/ENG-1/t" "2022-01-01"
          ⟨"user-a", "Title", ⟨"ENG", "Engineering"⟩, ⟨"Todo", "#ffffff"⟩,
            none, none⟩ (some ⟨none⟩))⟩).status = 200 ∧
    (handler false mockUserById mockIssueById
      ⟨"POST", some trustedIp, goodQuery,
        some (.issueUpdate "https://linear.app/kong/issue/ENG-1/t" "2022-01-01"
          ⟨"user-a", "Title", ⟨"ENG", "Engineering"⟩, ⟨"Todo", "#ffffff"⟩,
            none, none⟩ (some ⟨none⟩))⟩).success = true ∧
    (handler false mockUserById mockIssueById
      ⟨"POST", some trustedIp, goodQuery,
        some (.issueUpdate "https://linear.app/kong/issue/ENG-1/t" "2022-01-01"
          ⟨"user-a", "Title", ⟨"ENG", "Engineering"⟩, ⟨"Todo", "#ffffff"⟩,
            none, none⟩ (some ⟨none⟩))⟩).message = some "OK" ∧
    ∃ p, (handler false mockUserById mockIssueById
      ⟨"POST", some trustedIp, goodQuery,
        some (.issueUpdate "https://linear.app/kong/issue/ENG-1/t" "2022-01-01"
          ⟨"user-a", "Title", ⟨"ENG", "Engineering"⟩, ⟨"Todo", "#ffffff"⟩,
            none, none⟩ (some ⟨none⟩))⟩).dispatched = some p ∧
      p.content = none ∧
      p.embed.color = some LINEAR_COLOR ∧
      p.embed.timestamp = some "2022-01-01" ∧
      p.embed.title = none ∧ p.embed.url = none ∧ p.embed.author = none ∧
      p.embed.footerText = none ∧ p.embed.footerIcon = none ∧
      p.embed.fields = [] ∧ p.embed.description = none :=
  c5_unhandled_dispatch false mockUserById mockIssueById
    ⟨"POST", some trustedIp, goodQuery,
      some (.issueUpdate "https://linear.app/kong/issue/ENG-1/t" "2022-01-01"
        ⟨"user-a", "Title", ⟨"ENG", "Engineering"⟩, ⟨"Todo", "#ffffff"⟩,
          none, none⟩ (some ⟨none⟩))⟩
    ⟨"wid", "wtok", "ltok"⟩ "https://linear.app/kong/issue/ENG-1/t"
    "2022-01-01"
    ⟨"user-a", "Title", ⟨"ENG", "Engineering"⟩, ⟨"Todo", "#ffffff"⟩,
      none, none⟩ (some ⟨none⟩)
    (by decide) (Or.inr (by decide)) rfl rfl (by decide)

/-- C2 counterexample: at a concrete Issue-Create whose resolved
assignee's display name is `"constructor"` — not a key of the static
table — and whose resolved actor has a different id, the dispatched
payload still carries a content string: the truthy
`Object.prototype.constructor` leaks through the JS property access.
This refutes the claim's "display name absent from the table ⇒ content
absent" direction. -/
theorem c2_counterexample :
    userProto.displayName = "constructor" ∧
    LINEAR_DISPLAY_NAME_TO_DISCORD_ID.lookup "constructor" = none ∧
    protoUserById "user-c" = .ok userProto ∧
    protoUserById "creator-9" = .ok userAki ∧
    userProto.id ≠ userAki.id ∧
    (handler false protoUserById mockIssueById reqProtoMention).dispatched ≠
      none ∧
    (dispatchedPayloadOf
        (handler false protoUserById mockIssueById reqProtoMention)).content ≠
      none ∧
    (dispatchedPayloadOf
        (handler false protoUserById mockIssueById reqProtoMention)).content =
      some (MENTION_PREFIX ++ "<@" ++
        "function Object() \x7b [native code] \x7d" ++ ">") := by
  refine ⟨rfl, by decide, rfl, rfl, by decide, by decide, by decide, rfl⟩

/-- C2 (amended): for every handled event, the dispatched payload's
`content` is a mention of the mapped Discord id exactly when an actor
and an assignee were both resolved, their ids differ, and the assignee's
display name is a key of the static table — except that a display name
absent from the table but colliding with an `Object.prototype` member
name also produces a content string (the truthy inherited member's
stringification); in every other case `content` is absent. -/
theorem c2_mention_resolution (devMode : Bool)
    (userById : String → Except Unit User)
    (issueById : String → Except Unit IssueRec) (req : Request)
    (body : Event) (e : Embed) (asg au : Option User) (p : DispatchPayload)
    (hb : req.body = some body)
    (hrun : runEvent userById issueById body = .ok (e, asg, au))
    (hd : (handler devMode userById issueById req).dispatched = some p) :
    ∀ s : String, p.content = some s ↔
      ∃ a u, asg = some a ∧ au = some u ∧ a.id ≠ u.id ∧
        ((∃ i, LINEAR_DISPLAY_NAME_TO_DISCORD_ID.lookup a.displayName =
              some i ∧
            s = MENTION_PREFIX ++ "<@" ++ i ++ ">") ∨
         (LINEAR_DISPLAY_NAME_TO_DISCORD_ID.lookup a.displayName = none ∧
            a.displayName ∈ OBJECT_PROTOTYPE_MEMBERS ∧
            s = MENTION_PREFIX ++ "<@" ++
              jsPropString (.inherited a.displayName) ++ ">")) := by
  intro s
  obtain ⟨creds, body2, e2, asg2, au2, hq2, hb2, hrun2, hp⟩ :=
    handler_dispatch_shape devMode userById issueById req p hd
  rw [hb] at hb2
  injection hb2 with hbeq
  subst hbeq
  rw [hrun] at hrun2
  injection hrun2 with htrip
  injection htrip with he hrest
  injection hrest with hasg hau
  subst he
  subst hasg
  subst hau
  subst hp
  exact mentionContent_eq_some_iff asg au s

/-- Witness for C2 at a concrete Issue-Create whose assignee (`kong`,
mapped in the table) differs from the actor: the content is exactly the
mention of the mapped id. -/
theorem c2_witness :
    (dispatchedPayloadOf
        (handler false mockUserById mockIssueById reqMention)).content =
      some (MENTION_PREFIX ++ "<@" ++ "152805815097491456" ++ ">") ↔
    ∃ a u, some userKong = some a ∧ some userAki = some u ∧
      a.id ≠ u.id ∧
      ((∃ i, LINEAR_DISPLAY_NAME_TO_DISCORD_ID.lookup a.displayName =
            some i ∧
          MENTION_PREFIX ++ "<@" ++ "152805815097491456" ++ ">" =
            MENTION_PREFIX ++ "<@" ++ i ++ ">") ∨
       (LINEAR_DISPLAY_NAME_TO_DISCORD_ID.lookup a.displayName = none ∧
          a.displayName ∈ OBJECT_PROTOTYPE_MEMBERS ∧
          MENTION_PREFIX ++ "<@" ++ "152805815097491456" ++ ">" =
            MENTION_PREFIX ++ "<@" ++
              jsPropString (.inherited a.displayName) ++ ">")) :=
  c2_mention_resolution false mockUserById mockIssueById reqMention
    bodyMention _ (some userKong) (some userAki)
    (dispatchedPayloadOf (handler false mockUserById mockIssueById reqMention))
    rfl rfl rfl (MENTION_PREFIX ++ "<@" ++ "152805815097491456" ++ ">")

/-- C9: for every Comment-Create event that was processed successfully,
the actor is the user fetched by the comment's author id, the assignee
handed to mention resolution is exactly the one carried by the parent
issue fetched by its id (not any direct user-id field of the comment
payload), and any dispatched payload's content is the mention resolution
of that pair. -/
theorem c9_comment_enrichment
    (userById : String → Except Unit User)
    (issueById : String → Except Unit IssueRec)
    (url createdAt : String) (d : CommentData) (e : Embed)
    (asg au : Option User)
    (hrun : runEvent userById issueById (.commentCreate url createdAt d) =
      .ok (e, asg, au)) :
    (∃ actor, userById d.userId = .ok actor ∧ au = some actor) ∧
    (∃ iss, issueById d.issue.id = .ok iss ∧ asg = iss.assignee) ∧
    (∀ (devMode : Bool) (req : Request) (p : DispatchPayload),
      req.body = some (.commentCreate url createdAt d) →
      (handler devMode userById issueById req).dispatched = some p →
      p.content = mentionContent asg au) := by
  have hrun0 := hrun
  cases hu : userById d.userId with
  | error err =>
      simp [runEvent, fetchUser, hu, Bind.bind, Except.bind] at hrun
  | ok actor =>
    cases hi : issueById d.issue.id with
    | error err =>
        simp [runEvent, fetchUser, fetchIssue, hu, hi, Bind.bind,
          Except.bind] at hrun
    | ok iss =>
      cases hpi : parseIdentifier url with
      | none =>
          simp [runEvent, fetchUser, fetchIssue, runParseIdentifier,
            hu, hi, hpi, Bind.bind, Except.bind, Functor.map,
            Except.map] at hrun
      | some idf =>
          simp only [runEvent, fetchUser, fetchIssue, runParseIdentifier,
            hu, hi, hpi, Bind.bind, Except.bind, Functor.map, Except.map,
            Pure.pure, Except.pure, Except.ok.injEq, Prod.mk.injEq] at hrun
          obtain ⟨he, hasg, hau⟩ := hrun
          subst he
          subst hasg
          subst hau
          refine ⟨⟨actor, rfl, rfl⟩, ⟨iss, rfl, rfl⟩, ?_⟩
          intro devMode req p hb hd
          obtain ⟨creds, body2, e2, asg2, au2, hq2, hb2, hrun2, hp⟩ :=
            handler_dispatch_shape devMode userById issueById req p hd
          rw [hb] at hb2
          injection hb2 with hbeq
          subst hbeq
          rw [hrun0] at hrun2
          injection hrun2 with htrip
          injection htrip with he2 hrest
          injection hrest with hasg2 hau2
          subst hasg2
          subst hau2
          subst hp
          rfl

/-- Witness for C9 at a concrete Comment-Create processed with the mock
oracles: the parent issue's assignee (`userKong`) is the one used. -/
theorem c9_witness :
    (∃ actor, mockUserById "creator-9" = .ok actor ∧
      some userAki = some actor) ∧
    (∃ iss, mockIssueById "iss-1" = .ok iss ∧
      some userKong = iss.assignee) ∧
    (∀ (devMode : Bool) (req : Request) (p : DispatchPayload),
      req.body = some (.commentCreate "https://linear.app/kong/issue/ENG-5#c"
        "2022-03-03" ⟨"creator-9", ⟨"iss-1", "Issue Five"⟩, "hello"⟩) →
      (handler devMode mockUserById mockIssueById req).dispatched = some p →
      p.content = mentionContent (some userKong) (some userAki)) :=
  c9_comment_enrichment mockUserById mockIssueById
    "https://linear.app/kong/issue/ENG-5#c" "2022-03-03"
    ⟨"creator-9", ⟨"iss-1", "Issue Five"⟩, "hello"⟩ _
    (some userKong) (some userAki) rfl

/-- Helper: the identifier parse is partial — with fewer than six
segments the indexing dereferences an absent element. -/
theorem parseIdentifier_none_of_short (url : String)
    (h : (splitChar '/' url.toList).length < 6) :
    parseIdentifier url = none := by
  unfold parseIdentifier
  have hnone : (splitChar '/' url.toList).get? 5 = none := by
    rw [List.get?_eq_getElem?]
    exact List.getElem?_eq_none (by omega)
  rw [hnone]

/-- C10: for every handled Issue or Comment event whose URL has fewer
than six `/`-separated segments, processing throws (either at a lookup
or at the identifier parse), so a gate-passing request gets HTTP 500
with the generic message and no outbound dispatch. -/
theorem c10_short_url_aborts (devMode : Bool)
    (userById : String → Except Unit User)
    (issueById : String → Except Unit IssueRec) (req : Request)
    (creds : Creds) (body : Event)
    (hm : req.method = "POST")
    (hip : devMode = true ∨ (req.forwardedFor.getD "") ∈ LINEAR_TRUSTED_IPS)
    (hq : parseQuery req.query = .ok creds)
    (hb : req.body = some body)
    (hhandled :
      (∃ u c d, body = .issueCreate u c d) ∨
      (∃ u c d uf, body = .issueUpdate u c d uf ∧
        truthyStr (uf.bind (·.stateId)) = true) ∨
      (∃ u c d, body = .commentCreate u c d))
    (hshort : (splitChar '/' body.url.toList).length < 6) :
    handler devMode userById issueById req =
      { status := 500, success := false, message := none
        error := .msg "Something went wrong.", dispatched := none } := by
  have herr : ∃ err, runEvent userById issueById body = .error err := by
    rcases hhandled with ⟨u, c, d, rfl⟩ | ⟨u, c, d, uf, rfl, hst⟩ |
      ⟨u, c, d, rfl⟩
    · have hpi : parseIdentifier u = none :=
        parseIdentifier_none_of_short u (by simpa [Event.url] using hshort)
      cases hu : userById d.creatorId with
      | error e =>
          exact ⟨.lookup, by
            simp [runEvent, fetchUser, hu, Bind.bind, Except.bind]⟩
      | ok actor =>
          exact ⟨.parse, by
            simp [runEvent, fetchUser, runParseIdentifier, hu, hpi,
              Bind.bind, Except.bind]⟩
    · have hpi : parseIdentifier u = none :=
        parseIdentifier_none_of_short u (by simpa [Event.url] using hshort)
      cases hu : userById d.creatorId with
      | error e =>
          exact ⟨.lookup, by
            simp [runEvent, fetchUser, hu, hst, Bind.bind, Except.bind]⟩
      | ok actor =>
          exact ⟨.parse, by
            simp [runEvent, fetchUser, runParseIdentifier, hu, hpi, hst,
              Bind.bind, Except.bind]⟩
    · have hpi : parseIdentifier u = none :=
        parseIdentifier_none_of_short u (by simpa [Event.url] using hshort)
      cases hu : userById d.userId with
      | error e =>
          exact ⟨.lookup, by
            simp [runEvent, fetchUser, hu, Bind.bind, Except.bind]⟩
      | ok actor =>
          cases hi : issueById d.issue.id with
          | error e =>
              exact ⟨.lookup, by
                simp [runEvent, fetchUser, fetchIssue, hu, hi, Bind.bind,
                  Except.bind]⟩
          | ok iss =>
              exact ⟨.parse, by
                simp [runEvent, fetchUser, fetchIssue, runParseIdentifier,
                  hu, hi, hpi, Bind.bind, Except.bind, Functor.map,
                  Except.map]⟩
  obtain ⟨err, herr⟩ := herr
  rcases hip with hdev | hip
  · subst hdev
    simp [handler, hm, hq, hb, herr]
  · simp [handler, hm, hip, hq, hb, herr]

/-- Witness for C10: an Issue-Create whose URL has a single segment. -/
theorem c10_witness :
    handler false mockUserById mockIssueById reqShortUrl =
      { status := 500, success := false, message := none
        error := .msg "Something went wrong.", dispatched := none } :=
  c10_short_url_aborts false mockUserById mockIssueById reqShortUrl
    ⟨"wid", "wtok", "ltok"⟩ bodyShortUrl (by decide) (Or.inr (by decide))
    rfl rfl
    (Or.inl ⟨"no-slashes", "2022-04-04",
      ⟨"user-a", "T", ⟨"ENG", "Engineering"⟩, ⟨"Todo", "#eb5757"⟩,
        none, none⟩, rfl⟩)
    (by decide)

end Webhook
